import Mathlib

/-!
# SYCL Academy exercises: a shallow embedding

Every exercise is a flat test case: fill host arrays, stage them to a device,
run elementwise kernels, copy the data back, compare with a closed form.
The memory of a run is a `Store`: every named array (host array, USM device
allocation, buffer storage) with its elements.  The contents a C++ array
has before it is written are unknown, so every run starts from an arbitrary
store `s0` whose arrays have the sizes the test case gives them.
-/

namespace SyclAcademy

/-! ## Definitions -/

/-- Memory of one test case: every named array with its elements. -/
abbrev Store (B V : Type) := List (B × List V)

/-- The elements of the array `arr`. -/
def Store.array {B V : Type} [DecidableEq B] : Store B V → B → List V
  | [], _ => []
  | p :: ps, arr => if p.1 = arr then p.2 else Store.array ps arr

/-- The number of elements of the array `arr`. -/
def Store.size {B V : Type} [DecidableEq B] (s : Store B V) (arr : B) : Nat :=
  (s.array arr).length

/-- The value of `arr[i]`. -/
def Store.read {B V : Type} [DecidableEq B] [Inhabited V] (s : Store B V) (arr : B)
    (i : Nat) : V :=
  (s.array arr).getD i default

/-- Every array `arr` of the memory has `extent arr` elements. -/
def Store.Allocated {B V : Type} [DecidableEq B] (s : Store B V) (extent : B → Nat) :
    Prop :=
  ∀ arr, s.size arr = extent arr

/-- The assignment `arr[i] = v`; an index past the end of `arr` writes nothing. -/
def assign {B V : Type} [DecidableEq B] : Store B V → B → Nat → V → Store B V
  | [], _, _, _ => []
  | p :: ps, arr, i, v =>
    if p.1 = arr then (p.1, p.2.set i v) :: ps else p :: assign ps arr i v

/-- The host loop `for (int i = 0; i < n; ++i) body(i)`. -/
def for_loop {S : Type} (n : Nat) (body : Nat → S → S) (s : S) : S :=
  (List.range n).foldl (fun acc i => body i acc) s

/-- The call `parallel_for(sycl::range{n}, body)`: one work item per index of the
range.  The work items are executed here in index order. -/
def parallel_for {S : Type} (n : Nat) (body : Nat → S → S) (s : S) : S :=
  for_loop n body s

/-- The work items of a `parallel_for` executed one after the other in the order
`items`; `parallel_for n` is the order `0, 1, ..., n - 1`. -/
def run_work_items {S : Type} (items : List Nat) (body : Nat → S → S) (s : S) : S :=
  items.foldl (fun acc i => body i acc) s

/-- Copy of `n` elements from `src + srcOff` to `dst + dstOff`.  The two ranges do not
overlap; the elements are read from the memory `s` the copy starts with. -/
def copy_range {B V : Type} [DecidableEq B] [Inhabited V] (dst : B) (dstOff : Nat)
    (src : B) (srcOff : Nat) (n : Nat) (s : Store B V) : Store B V :=
  for_loop n (fun j acc => assign acc dst (dstOff + j) (s.read src (srcOff + j))) s

/-- The call `queue.memcpy(dst, src, count * sizeof(T))`: the first `count` elements of
`src` are copied to `dst`. -/
def memcpy {B V : Type} [DecidableEq B] [Inhabited V] (dst src : B) (count : Nat)
    (s : Store B V) : Store B V :=
  copy_range dst 0 src 0 count s

/-- Construction `sycl::buffer{host + off, sycl::range{n}}`: the storage `buf` of the
buffer holds the `n` host elements that start at `host + off`. -/
def buffer_create {B V : Type} [DecidableEq B] [Inhabited V] (buf host : B) (off n : Nat)
    (s : Store B V) : Store B V :=
  copy_range buf 0 host off n s

/-- Destruction of a buffer of `n` elements whose final data pointer is `dst + off`: the
storage `buf` is copied to the `n` elements that start at `dst + off`. -/
def buffer_destroy {B V : Type} [DecidableEq B] [Inhabited V] (buf dst : B) (off n : Nat)
    (s : Store B V) : Store B V :=
  copy_range dst off buf 0 n s

/-- A loop body is row local when iteration `idx` keeps the size of every array,
changes index `idx` only and reads index `idx` only. -/
def RowLocal {B V : Type} [DecidableEq B] [Inhabited V]
    (body : Nat → Store B V → Store B V) : Prop :=
  (∀ idx s b, (body idx s).size b = s.size b) ∧
  (∀ idx s b j, j ≠ idx → (body idx s).read b j = s.read b j) ∧
  (∀ idx s t b, (∀ c, s.size c = t.size c) → (∀ c, s.read c idx = t.read c idx) →
    (body idx s).read b idx = (body idx t).read b idx)

/-- Device aspects queried through `dev.has(...)`. -/
inductive Aspect where
  | cpu
  | gpu
  | accelerator
  | usm_device_allocations
  | usm_host_allocations
  deriving DecidableEq, Repr

/-- A `sycl::device`: an identity and the aspects it reports. -/
structure Device where
  id : Nat
  aspects : List Aspect
  deriving DecidableEq, Repr

/-- The query `dev.has(aspect)`. -/
def Device.has (dev : Device) (a : Aspect) : Bool :=
  decide (a ∈ dev.aspects)

/-- Modelled from the spec: the device selection of the SYCL runtime is not part of the
repository.  A selector scores every available device, the device with the highest
score is chosen, and a device with a negative score is never chosen.  This predicate
says that `d` is a device the rule may choose. -/
def Chosen (selector : Device → Int) (devs : List Device) (d : Device) : Prop :=
  d ∈ devs ∧ 0 ≤ selector d ∧ ∀ e ∈ devs, selector e ≤ selector d

/-- Modelled from the spec: an executable device selection following the same rule; of
several devices with the highest score the earliest in the enumeration is taken.
`none` stands for the exception thrown when no device has a score of at least zero. -/
def select_device (selector : Device → Int) : List Device → Option Device
  | [] => none
  | d :: ds =>
    match select_device selector ds with
    | none => if 0 ≤ selector d then some d else none
    | some e => if selector e ≤ selector d then (if 0 ≤ selector d then some d else some e)
                else some e

namespace Exercise_08_USM_Vector_Add

/-- The arrays of the test case: the host arrays and the USM device allocations. -/
inductive Mem where
  | a | b | r
  | device_ptrA | device_ptrB | device_ptrR
  deriving DecidableEq, Repr

/-- The constant `dataSize`. -/
def dataSize : Nat := 1024

/-- The host arrays and the device allocations have `dataSize` elements each. -/
def extent (_arr : Mem) : Nat := dataSize

/-- Memory of the test case with `v` in every element. -/
def memory (v : Int) : Store Mem Int :=
  [Mem.a, Mem.b, Mem.r, Mem.device_ptrA, Mem.device_ptrB, Mem.device_ptrR].map
    (fun arr => (arr, List.replicate dataSize v))

/-- The function `usm_selector`: the `bool` of `dev.has` converted to `int`. -/
def usm_selector (dev : Device) : Int :=
  if dev.has Aspect.usm_device_allocations then 1 else 0

/-- Body of the host loop that fills `a`, `b` and `r`. -/
def fill (i : Nat) (s : Store Mem Int) : Store Mem Int :=
  assign (assign (assign s Mem.a i (i : Int)) Mem.b i (i : Int)) Mem.r i 0

/-- The kernel `usm_add`. -/
def usm_add (idx : Nat) (s : Store Mem Int) : Store Mem Int :=
  assign s Mem.device_ptrR idx (s.read Mem.device_ptrA idx + s.read Mem.device_ptrB idx)

/-- The test case `usm_vector_add` up to its final `REQUIRE` loop.  The device the
queue is bound to does not enter the data flow. -/
def usm_vector_add (s0 : Store Mem Int) : Store Mem Int :=
  let s := for_loop dataSize fill s0
  let s := memcpy Mem.device_ptrA Mem.a dataSize s
  let s := memcpy Mem.device_ptrB Mem.b dataSize s
  let s := memcpy Mem.device_ptrR Mem.r dataSize s
  let s := parallel_for dataSize usm_add s
  let s := memcpy Mem.a Mem.device_ptrA dataSize s
  let s := memcpy Mem.b Mem.device_ptrB dataSize s
  memcpy Mem.r Mem.device_ptrR dataSize s

end Exercise_08_USM_Vector_Add

namespace Exercise_09_Synchronization

/-- The arrays of the two test cases: host arrays, USM device allocations and the
storage of the three buffers. -/
inductive Mem where
  | a | b | r
  | device_ptrA | device_ptrB | device_ptrR
  | bufA | bufB | bufR
  deriving DecidableEq, Repr

/-- The constant `dataSize`. -/
def dataSize : Nat := 1024

/-- The host arrays, the device allocations and the buffers have `dataSize` elements
each. -/
def extent (_arr : Mem) : Nat := dataSize

/-- Memory of the test cases with `v` in every element. -/
def memory (v : Int) : Store Mem Int :=
  [Mem.a, Mem.b, Mem.r, Mem.device_ptrA, Mem.device_ptrB, Mem.device_ptrR, Mem.bufA,
    Mem.bufB, Mem.bufR].map (fun arr => (arr, List.replicate dataSize v))

/-- The function `usm_selector`. -/
def usm_selector (dev : Device) : Int :=
  if dev.has Aspect.usm_device_allocations then 1 else 0

/-- Body of the host loop that fills `a`, `b` and `r`. -/
def fill (i : Nat) (s : Store Mem Int) : Store Mem Int :=
  assign (assign (assign s Mem.a i (i : Int)) Mem.b i (i : Int)) Mem.r i 0

/-- The kernel `usm_add`. -/
def usm_add (idx : Nat) (s : Store Mem Int) : Store Mem Int :=
  assign s Mem.device_ptrR idx (s.read Mem.device_ptrA idx + s.read Mem.device_ptrB idx)

/-- The kernel `vector_add` on the accessors of `bufA`, `bufB` and `bufR`. -/
def vector_add (idx : Nat) (s : Store Mem Int) : Store Mem Int :=
  assign s Mem.bufR idx (s.read Mem.bufA idx + s.read Mem.bufB idx)

/-- The test case `synchronization_usm` up to its final `REQUIRE` loop. -/
def synchronization_usm (s0 : Store Mem Int) : Store Mem Int :=
  let s := for_loop dataSize fill s0
  let s := memcpy Mem.device_ptrA Mem.a dataSize s
  let s := memcpy Mem.device_ptrB Mem.b dataSize s
  let s := memcpy Mem.device_ptrR Mem.r dataSize s
  let s := parallel_for dataSize usm_add s
  let s := memcpy Mem.a Mem.device_ptrA dataSize s
  let s := memcpy Mem.b Mem.device_ptrB dataSize s
  memcpy Mem.r Mem.device_ptrR dataSize s

/-- The test case `synchronization_buffer_acc` up to the point where the host accessor
`hostAccR` is read: the buffers are alive, the kernel has finished. -/
def synchronization_buffer_acc_inner (s0 : Store Mem Int) : Store Mem Int :=
  let s := for_loop dataSize fill s0
  let s := buffer_create Mem.bufA Mem.a 0 dataSize s
  let s := buffer_create Mem.bufB Mem.b 0 dataSize s
  let s := buffer_create Mem.bufR Mem.r 0 dataSize s
  parallel_for dataSize vector_add s

/-- The host accessor `hostAccR = bufR.get_host_access(sycl::read_only)`. -/
def hostAccR (s0 : Store Mem Int) (i : Nat) : Int :=
  (synchronization_buffer_acc_inner s0).read Mem.bufR i

/-- The test case `synchronization_buffer_acc` up to its final `REQUIRE` loop: the
buffers leave their scope in reverse order of declaration and copy back. -/
def synchronization_buffer_acc (s0 : Store Mem Int) : Store Mem Int :=
  let s := synchronization_buffer_acc_inner s0
  let s := buffer_destroy Mem.bufR Mem.r 0 dataSize s
  let s := buffer_destroy Mem.bufB Mem.b 0 dataSize s
  buffer_destroy Mem.bufA Mem.a 0 dataSize s

end Exercise_09_Synchronization

namespace Exercise_07_USM_Selector

/-- The function `usm_selector`: the `bool` of `dev.has` converted to `int`. -/
def usm_selector (dev : Device) : Int :=
  if dev.has Aspect.usm_device_allocations then 1 else 0

/-- The queue `usmQueue = sycl::queue{usm_selector}` of the test case, as the device
it is bound to; `devs` are the devices available to the runtime. -/
def usmQueue (devs : List Device) : Option Device :=
  select_device usm_selector devs

/-- A device without USM device allocations: a host CPU. -/
def host_cpu : Device := ⟨0, [Aspect.cpu]⟩

end Exercise_07_USM_Selector

namespace Exercise_10_Managing_Dependencies

/-- The arrays of the test case: the host arrays and the storage of the four buffers.
The host arrays are arrays of `int`. -/
inductive Mem where
  | inA | inB | inC | out
  | buffA | buffB | buffC | buffOut
  deriving DecidableEq, Repr

/-- The constant `dataSize`. -/
def dataSize : Nat := 1024

/-- The host arrays and the buffers have `dataSize` elements each. -/
def extent (_arr : Mem) : Nat := dataSize

/-- Memory of the test case with `v` in every element. -/
def memory (v : Int) : Store Mem Int :=
  [Mem.inA, Mem.inB, Mem.inC, Mem.out, Mem.buffA, Mem.buffB, Mem.buffC, Mem.buffOut].map
    (fun arr => (arr, List.replicate dataSize v))

/-- Body of the host loop that fills `inA`, `inB`, `inC` and `out`. -/
def fill (i : Nat) (s : Store Mem Int) : Store Mem Int :=
  assign (assign (assign (assign s Mem.inA i (i : Int)) Mem.inB i (i : Int))
    Mem.inC i (i : Int)) Mem.out i 0

/-- The kernel `kernelA`: `accA[idx] = accA[idx] * 2.0f`. -/
def kernelA (idx : Nat) (s : Store Mem Int) : Store Mem Int :=
  assign s Mem.buffA idx (s.read Mem.buffA idx * 2)

/-- The kernel `kernelB`: `accB[idx] += accA[idx]`.  The accessor `accB` is write only
without `no_init`, so the buffer keeps its content and `+=` reads it. -/
def kernelB (idx : Nat) (s : Store Mem Int) : Store Mem Int :=
  assign s Mem.buffB idx (s.read Mem.buffB idx + s.read Mem.buffA idx)

/-- The kernel `kernelC`: `accC[idx] -= accA[idx]`. -/
def kernelC (idx : Nat) (s : Store Mem Int) : Store Mem Int :=
  assign s Mem.buffC idx (s.read Mem.buffC idx - s.read Mem.buffA idx)

/-- The kernel `kernelOut`: `accOut[idx] = accB[idx] + accC[idx]`. -/
def kernelOut (idx : Nat) (s : Store Mem Int) : Store Mem Int :=
  assign s Mem.buffOut idx (s.read Mem.buffB idx + s.read Mem.buffC idx)

/-- The four buffers are constructed on the host arrays. -/
def create_buffers (s : Store Mem Int) : Store Mem Int :=
  let s := buffer_create Mem.buffA Mem.inA 0 dataSize s
  let s := buffer_create Mem.buffB Mem.inB 0 dataSize s
  let s := buffer_create Mem.buffC Mem.inC 0 dataSize s
  buffer_create Mem.buffOut Mem.out 0 dataSize s

/-- The four buffers leave the `try` block in reverse order of declaration and copy
back to their host arrays. -/
def destroy_buffers (s : Store Mem Int) : Store Mem Int :=
  let s := buffer_destroy Mem.buffOut Mem.out 0 dataSize s
  let s := buffer_destroy Mem.buffC Mem.inC 0 dataSize s
  let s := buffer_destroy Mem.buffB Mem.inB 0 dataSize s
  buffer_destroy Mem.buffA Mem.inA 0 dataSize s

/-- The test case `managing_dependencies` up to its final `REQUIRE` loop, the kernels
running in the order of their submission. -/
def managing_dependencies (s0 : Store Mem Int) : Store Mem Int :=
  let s := for_loop dataSize fill s0
  let s := create_buffers s
  let s := parallel_for dataSize kernelA s
  let s := parallel_for dataSize kernelB s
  let s := parallel_for dataSize kernelC s
  let s := parallel_for dataSize kernelOut s
  destroy_buffers s

/-- The four command groups submitted to the queue. -/
inductive KernelName where
  | A | B | C | Out
  deriving DecidableEq, Repr, Fintype

/-- Access modes of the accessors. -/
inductive Access where
  | read_only | write_only | read_write
  deriving DecidableEq, Repr

/-- The accessors each command group declares. -/
def accessors : KernelName → List (Mem × Access)
  | KernelName.A => [(Mem.buffA, Access.read_write)]
  | KernelName.B => [(Mem.buffA, Access.read_only), (Mem.buffB, Access.write_only)]
  | KernelName.C => [(Mem.buffA, Access.read_only), (Mem.buffC, Access.write_only)]
  | KernelName.Out => [(Mem.buffB, Access.read_only), (Mem.buffC, Access.read_only),
      (Mem.buffOut, Access.write_only)]

/-- The order in which the command groups are submitted. -/
def submission : List KernelName :=
  [KernelName.A, KernelName.B, KernelName.C, KernelName.Out]

/-- Modelled from the spec: the dependency inference of the SYCL runtime is not part of
the repository.  An accessor is a declared read/write intent on a buffer; a command
group writes a buffer when it declares a write only or read write accessor on it. -/
def writes (k : KernelName) (buf : Mem) : Bool :=
  (accessors k).any (fun p => p.1 = buf ∧ p.2 ≠ Access.read_only)

/-- Modelled from the spec: a command group uses a buffer when it declares any accessor
on it. -/
def uses (k : KernelName) (buf : Mem) : Bool :=
  (accessors k).any (fun p => p.1 = buf)

/-- Modelled from the spec: `k2` depends on `k1` when `k1` is submitted before `k2` and
one of them writes a buffer the other one uses. -/
def depends (k1 k2 : KernelName) : Bool :=
  decide (submission.indexOf k1 < submission.indexOf k2) &&
    [Mem.buffA, Mem.buffB, Mem.buffC, Mem.buffOut].any
      (fun buf => (writes k1 buf && uses k2 buf) || (uses k1 buf && writes k2 buf))

/-- An execution order respects the dependencies when every command group runs after
the command groups it depends on. -/
def respects (order : List KernelName) : Prop :=
  ∀ k1 k2 : KernelName, depends k1 k2 = true → order.indexOf k1 < order.indexOf k2

instance (order : List KernelName) : Decidable (respects order) := by
  unfold respects
  infer_instance

/-- The `parallel_for` of one command group. -/
def run_kernel : KernelName → Store Mem Int → Store Mem Int
  | KernelName.A => parallel_for dataSize kernelA
  | KernelName.B => parallel_for dataSize kernelB
  | KernelName.C => parallel_for dataSize kernelC
  | KernelName.Out => parallel_for dataSize kernelOut

/-- The test case with the four kernels executed in the order `order`. -/
def managing_dependencies_scheduled (order : List KernelName) (s0 : Store Mem Int) :
    Store Mem Int :=
  let s := for_loop dataSize fill s0
  let s := create_buffers s
  let s := order.foldl (fun acc k => run_kernel k acc) s
  destroy_buffers s

end Exercise_10_Managing_Dependencies

namespace Exercise_12_Temporary_Data

/-- The arrays of the test case: the host arrays `in`, `out`, `tmp` and the storage of
the two buffers. -/
inductive Mem where
  | in_ | out | tmp
  | buffIn | buffTmp
  deriving DecidableEq, Repr

/-- The constant `dataSize`. -/
def dataSize : Nat := 1024

/-- The host arrays and the buffers have `dataSize` elements each. -/
def extent (_arr : Mem) : Nat := dataSize

/-- Memory of the test case with `v` in every element. -/
def memory (v : ℚ) : Store Mem ℚ :=
  [Mem.in_, Mem.out, Mem.tmp, Mem.buffIn, Mem.buffTmp].map
    (fun arr => (arr, List.replicate dataSize v))

/-- Body of the host loop that fills `in`, `tmp` and `out`. -/
def fill (i : Nat) (s : Store Mem ℚ) : Store Mem ℚ :=
  assign (assign (assign s Mem.in_ i (i : ℚ)) Mem.tmp i 0) Mem.out i 0

/-- The kernel `kernel1`: `accTmp[idx] = accIn[idx] * 8.0f`. -/
def kernel1 (idx : Nat) (s : Store Mem ℚ) : Store Mem ℚ :=
  assign s Mem.buffTmp idx (s.read Mem.buffIn idx * 8)

/-- The kernel `kernel2`: `accTmp[idx] /= 2.0f`. -/
def kernel2 (idx : Nat) (s : Store Mem ℚ) : Store Mem ℚ :=
  assign s Mem.buffTmp idx (s.read Mem.buffTmp idx / 2)

/-- The test case up to the end of `kernel1`.  `buffIn` is constructed on `in`;
`buffTmp` is constructed on no host memory, its storage starts with unknown content. -/
def temporary_data_kernel1 (s0 : Store Mem ℚ) : Store Mem ℚ :=
  let s := for_loop dataSize fill s0
  let s := buffer_create Mem.buffIn Mem.in_ 0 dataSize s
  parallel_for dataSize kernel1 s

/-- The test case up to the end of `kernel2`. -/
def temporary_data_kernel2 (s0 : Store Mem ℚ) : Store Mem ℚ :=
  parallel_for dataSize kernel2 (temporary_data_kernel1 s0)

/-- The test case `temporary_data` up to its final `REQUIRE` loop.  The final data of
`buffTmp` is `out`; the final data of `buffIn` is `nullptr`, nothing is copied. -/
def temporary_data (s0 : Store Mem ℚ) : Store Mem ℚ :=
  buffer_destroy Mem.buffTmp Mem.out 0 dataSize (temporary_data_kernel2 s0)

/-- A value is an integer of magnitude below `2^24`: a `float` holds it exactly. -/
def exact_float (q : ℚ) : Prop :=
  ∃ z : Int, q = (z : ℚ) ∧ -(2 ^ 24) < z ∧ z < 2 ^ 24

end Exercise_12_Temporary_Data

namespace Exercise_13_Load_Balancing

/-- The arrays of the test case: the host arrays and the storage of the six
buffers. -/
inductive Mem where
  | a | b | r
  | bufFirstA | bufFirstB | bufFirstR
  | bufSecondA | bufSecondB | bufSecondR
  deriving DecidableEq, Repr

/-- The constant `dataSize`. -/
def dataSize : Nat := 1024

/-- The constant `ratio = 0.5f`. -/
def ratio : ℚ := 1 / 2

/-- The constant `dataSizeFirst = ratio * dataSize`: the product is computed in
`float` and converted to `size_t`, which drops the fractional part. -/
def dataSizeFirst : Nat := ⌊ratio * (dataSize : ℚ)⌋₊

/-- The constant `dataSizeSecond = dataSize - dataSizeFirst`. -/
def dataSizeSecond : Nat := dataSize - dataSizeFirst

/-- The host arrays have `dataSize` elements, the buffers of the first kernel
`dataSizeFirst` and the buffers of the second kernel `dataSizeSecond`. -/
def extent : Mem → Nat
  | Mem.a => dataSize
  | Mem.b => dataSize
  | Mem.r => dataSize
  | Mem.bufFirstA => dataSizeFirst
  | Mem.bufFirstB => dataSizeFirst
  | Mem.bufFirstR => dataSizeFirst
  | Mem.bufSecondA => dataSizeSecond
  | Mem.bufSecondB => dataSizeSecond
  | Mem.bufSecondR => dataSizeSecond

/-- Memory of the test case with `v` in every element. -/
def memory (v : Int) : Store Mem Int :=
  [Mem.a, Mem.b, Mem.r, Mem.bufFirstA, Mem.bufFirstB, Mem.bufFirstR, Mem.bufSecondA,
    Mem.bufSecondB, Mem.bufSecondR].map (fun arr => (arr, List.replicate (extent arr) v))

/-- The function `get_two_devices`; `devs` is the result of
`sycl::device::get_devices()`.  A read past the end of `devs` yields `none`. -/
def get_two_devices (devs : List Device) : Option (List Device) :=
  if devs.length = 1 then do
    let d0 ← devs[0]?
    pure [d0, d0]
  else do
    let d1 ← devs[1]?
    let d2 ← devs[2]?
    pure [d1, d2]

/-- Body of the host loop that fills `a`, `b` and `r`. -/
def fill (i : Nat) (s : Store Mem Int) : Store Mem Int :=
  assign (assign (assign s Mem.a i (i : Int)) Mem.b i (i : Int)) Mem.r i 0

/-- The kernel `vector_add_first`. -/
def vector_add_first (idx : Nat) (s : Store Mem Int) : Store Mem Int :=
  assign s Mem.bufFirstR idx (s.read Mem.bufFirstA idx + s.read Mem.bufFirstB idx)

/-- The kernel `vector_add_second`. -/
def vector_add_second (idx : Nat) (s : Store Mem Int) : Store Mem Int :=
  assign s Mem.bufSecondR idx (s.read Mem.bufSecondA idx + s.read Mem.bufSecondB idx)

/-- The body of the `try` block after the two queues exist: six buffers, two kernels,
and the buffers leaving the block in reverse order of declaration. -/
def split_work (s : Store Mem Int) : Store Mem Int :=
  let s := buffer_create Mem.bufFirstA Mem.a 0 dataSizeFirst s
  let s := buffer_create Mem.bufFirstB Mem.b 0 dataSizeFirst s
  let s := buffer_create Mem.bufFirstR Mem.r 0 dataSizeFirst s
  let s := buffer_create Mem.bufSecondA Mem.a dataSizeFirst dataSizeSecond s
  let s := buffer_create Mem.bufSecondB Mem.b dataSizeFirst dataSizeSecond s
  let s := buffer_create Mem.bufSecondR Mem.r dataSizeFirst dataSizeSecond s
  let s := parallel_for dataSizeFirst vector_add_first s
  let s := parallel_for dataSizeSecond vector_add_second s
  let s := buffer_destroy Mem.bufSecondR Mem.r dataSizeFirst dataSizeSecond s
  let s := buffer_destroy Mem.bufSecondB Mem.b dataSizeFirst dataSizeSecond s
  let s := buffer_destroy Mem.bufSecondA Mem.a dataSizeFirst dataSizeSecond s
  let s := buffer_destroy Mem.bufFirstR Mem.r 0 dataSizeFirst s
  let s := buffer_destroy Mem.bufFirstB Mem.b 0 dataSizeFirst s
  buffer_destroy Mem.bufFirstA Mem.a 0 dataSizeFirst s

/-- The test case `load_balancing` up to its final `REQUIRE` loop; `devs` are the
devices the runtime enumerates.  `none` stands for a read past the end of `devs`. -/
def load_balancing (devs : List Device) (s0 : Store Mem Int) :
    Option (Store Mem Int) := do
  let s := for_loop dataSize fill s0
  let _devices ← get_two_devices devs
  pure (split_work s)

/-- A first device of the enumeration. -/
def dev0 : Device := ⟨0, [Aspect.cpu]⟩

/-- A second device of the enumeration. -/
def dev1 : Device := ⟨1, [Aspect.gpu, Aspect.usm_device_allocations]⟩

/-- A third device of the enumeration. -/
def dev2 : Device := ⟨2, [Aspect.accelerator]⟩

end Exercise_13_Load_Balancing

/-! ## Theorems -/

theorem array_assign {B V : Type} [DecidableEq B] (s : Store B V) (arr : B) (i : Nat)
    (v : V) (b : B) :
    (assign s arr i v).array b = if b = arr then (s.array arr).set i v else s.array b := by
  induction s with
  | nil => simp [assign, Store.array]
  | cons p ps ih =>
    by_cases hp : p.1 = arr
    · by_cases hb : b = arr
      · simp [assign, Store.array, hp, hb]
      · have hpb : ¬ arr = b := fun h => hb h.symm
        simp [assign, Store.array, hp, hb, hpb]
    · by_cases hpb : p.1 = b
      · have hb : ¬ b = arr := fun h => hp (hpb.trans h)
        simp [assign, Store.array, hp, hb, hpb]
      · simp [assign, Store.array, hp, hpb, ih]

theorem size_assign {B V : Type} [DecidableEq B] (s : Store B V) (arr : B) (i : Nat)
    (v : V) (b : B) : (assign s arr i v).size b = s.size b := by
  unfold Store.size
  rw [array_assign]
  split
  · subst_vars
    simp
  · rfl

/-- An assignment changes the assigned element, when it exists, and nothing else. -/
theorem read_assign {B V : Type} [DecidableEq B] [Inhabited V] (s : Store B V) (arr : B)
    (i : Nat) (v : V) (b : B) (j : Nat) :
    (assign s arr i v).read b j =
      if b = arr ∧ j = i ∧ i < s.size arr then v else s.read b j := by
  unfold Store.read Store.size
  rw [array_assign]
  by_cases hb : b = arr
  · subst hb
    by_cases hj : j = i
    · subst hj
      by_cases hlt : j < (s.array b).length
      · simp [hlt, List.getD_eq_getElem?_getD]
      · have h1 : ((s.array b).set j v).length ≤ j := by
          rw [List.length_set]
          exact Nat.le_of_not_lt hlt
        have h2 : (s.array b).length ≤ j := Nat.le_of_not_lt hlt
        simp [hlt, List.getD_eq_getElem?_getD, List.getElem?_eq_none h1,
          List.getElem?_eq_none h2]
    · have hij : ¬ i = j := fun h => hj h.symm
      simp [hj, List.getD_eq_getElem?_getD, List.getElem?_set, hij]
  · simp [hb]

/-- Two arrays of the same size with the same elements are the same array. -/
theorem array_ext {B V : Type} [DecidableEq B] [Inhabited V] (s t : Store B V) (arr : B)
    (hsize : s.size arr = t.size arr)
    (hread : ∀ i, i < s.size arr → s.read arr i = t.read arr i) :
    s.array arr = t.array arr := by
  apply List.ext_getElem hsize
  intro i h1 h2
  have h := hread i h1
  simp only [Store.read, List.getD_eq_getElem?_getD, List.getElem?_eq_getElem h1,
    List.getElem?_eq_getElem h2, Option.getD_some] at h
  exact h

theorem for_loop_succ {S : Type} (n : Nat) (body : Nat → S → S) (s : S) :
    for_loop (n + 1) body s = body n (for_loop n body s) := by
  simp [for_loop, List.range_succ, List.foldl_append]

theorem size_run_work_items {B V : Type} [DecidableEq B]
    {body : Nat → Store B V → Store B V}
    (h : ∀ idx s b, (body idx s).size b = s.size b) (items : List Nat) (s : Store B V)
    (b : B) : (run_work_items items body s).size b = s.size b := by
  induction items generalizing s with
  | nil => rfl
  | cons x xs ih =>
    have hstep : run_work_items (x :: xs) body s = run_work_items xs body (body x s) := rfl
    rw [hstep, ih, h]

theorem size_for_loop {B V : Type} [DecidableEq B] {body : Nat → Store B V → Store B V}
    (h : ∀ idx s b, (body idx s).size b = s.size b) (n : Nat) (s : Store B V) (b : B) :
    (for_loop n body s).size b = s.size b :=
  size_run_work_items h (List.range n) s b

theorem size_parallel_for {B V : Type} [DecidableEq B] [Inhabited V]
    {body : Nat → Store B V → Store B V} (h : RowLocal body) (n : Nat) (s : Store B V)
    (b : B) : (parallel_for n body s).size b = s.size b :=
  size_for_loop h.1 n s b

/-- Work items of a row local kernel executed in any order without repetition leave
at index `j` what work item `j` alone writes there. -/
theorem read_run_work_items {B V : Type} [DecidableEq B] [Inhabited V]
    {body : Nat → Store B V → Store B V} (h : RowLocal body) (items : List Nat)
    (hnd : items.Nodup) (s : Store B V) (b : B) (j : Nat) :
    (run_work_items items body s).read b j =
      if j ∈ items then (body j s).read b j else s.read b j := by
  induction items generalizing s with
  | nil => simp [run_work_items]
  | cons x xs ih =>
    have hx : x ∉ xs := (List.nodup_cons.mp hnd).1
    have hstep : run_work_items (x :: xs) body s = run_work_items xs body (body x s) := rfl
    rw [hstep, ih (List.nodup_cons.mp hnd).2]
    by_cases hj : j ∈ xs
    · have hne : j ≠ x := fun e => hx (e ▸ hj)
      have hrow : ∀ c, (body x s).read c j = s.read c j := fun c => h.2.1 x s c j hne
      simp [hj, h.2.2 j (body x s) s b (h.1 x s) hrow]
    · by_cases hjx : j = x
      · subst hjx
        simp [hj]
      · simp [hj, hjx, h.2.1 x s b j hjx]

/-- A row local loop over `n` indices leaves at index `j < n` what iteration `j` alone
writes there, and leaves every other index untouched. -/
theorem read_for_loop {B V : Type} [DecidableEq B] [Inhabited V]
    {body : Nat → Store B V → Store B V} (h : RowLocal body) (n : Nat) (s : Store B V)
    (b : B) (j : Nat) :
    (for_loop n body s).read b j = if j < n then (body j s).read b j else s.read b j := by
  have := read_run_work_items h (List.range n) (List.nodup_range n) s b j
  simpa [run_work_items, for_loop] using this

theorem read_parallel_for {B V : Type} [DecidableEq B] [Inhabited V]
    {body : Nat → Store B V → Store B V} (h : RowLocal body) (n : Nat) (s : Store B V)
    (b : B) (j : Nat) :
    (parallel_for n body s).read b j =
      if j < n then (body j s).read b j else s.read b j :=
  read_for_loop h n s b j

/-- The result of a row local `parallel_for` does not depend on the order in which the
work items are executed. -/
theorem parallel_for_any_order {B V : Type} [DecidableEq B] [Inhabited V]
    {body : Nat → Store B V → Store B V} (h : RowLocal body) (n : Nat) (items : List Nat)
    (hperm : items.Perm (List.range n)) (s : Store B V) (b : B) :
    (run_work_items items body s).array b = (parallel_for n body s).array b := by
  apply array_ext
  · rw [size_run_work_items h.1, size_parallel_for h]
  · intro j _
    rw [read_run_work_items h items (hperm.nodup_iff.mpr (List.nodup_range n)),
      read_parallel_for h]
    simp [hperm.mem_iff]

theorem size_copy_range {B V : Type} [DecidableEq B] [Inhabited V] (dst : B) (dstOff : Nat)
    (src : B) (srcOff n : Nat) (s : Store B V) (b : B) :
    (copy_range dst dstOff src srcOff n s).size b = s.size b :=
  size_for_loop (fun _ _ _ => size_assign _ _ _ _ _) n s b

/-- A copy changes the elements of the destination range that exist, and nothing
else. -/
theorem read_copy_range {B V : Type} [DecidableEq B] [Inhabited V] (dst : B) (dstOff : Nat)
    (src : B) (srcOff n : Nat) (s : Store B V) (b : B) (k : Nat) :
    (copy_range dst dstOff src srcOff n s).read b k =
      if b = dst ∧ dstOff ≤ k ∧ k < dstOff + n ∧ k < s.size dst
      then s.read src (srcOff + (k - dstOff)) else s.read b k := by
  unfold copy_range
  generalize hf : (fun j => s.read src (srcOff + j)) = f
  have hbody : (fun (j : Nat) (acc : Store B V) =>
      assign acc dst (dstOff + j) (s.read src (srcOff + j))) =
      fun j acc => assign acc dst (dstOff + j) (f j) := by
    subst hf
    rfl
  rw [hbody]
  have hval : s.read src (srcOff + (k - dstOff)) = f (k - dstOff) := by
    subst hf
    rfl
  rw [hval]
  clear hbody hval hf
  induction n with
  | zero =>
    have hno : ¬ (b = dst ∧ dstOff ≤ k ∧ k < dstOff + 0 ∧ k < s.size dst) := by omega
    rw [if_neg hno]
    rfl
  | succ n ih =>
    rw [for_loop_succ, read_assign, ih,
      size_for_loop (fun _ _ _ => size_assign _ _ _ _ _) n s dst]
    by_cases hb : b = dst
    · by_cases hk : k = dstOff + n
      · subst hk
        by_cases hlt : dstOff + n < s.size dst
        · simp [hb, hlt]
        · simp [hb, hlt]
      · by_cases hlo : dstOff ≤ k
        · by_cases hhi : k < dstOff + n
          · have : k < dstOff + (n + 1) := by omega
            simp [hb, hk, hlo, hhi, this]
          · have : ¬ k < dstOff + (n + 1) := by omega
            simp [hb, hk, hlo, hhi, this]
        · simp [hb, hk, hlo]
    · simp [hb]

theorem size_memcpy {B V : Type} [DecidableEq B] [Inhabited V] (dst src : B) (count : Nat)
    (s : Store B V) (b : B) : (memcpy dst src count s).size b = s.size b :=
  size_copy_range dst 0 src 0 count s b

theorem read_memcpy {B V : Type} [DecidableEq B] [Inhabited V] (dst src : B) (count : Nat)
    (s : Store B V) (b : B) (k : Nat) :
    (memcpy dst src count s).read b k =
      if b = dst ∧ k < count ∧ k < s.size dst then s.read src k else s.read b k := by
  simp [memcpy, read_copy_range]

theorem size_buffer_create {B V : Type} [DecidableEq B] [Inhabited V] (buf host : B)
    (off n : Nat) (s : Store B V) (b : B) :
    (buffer_create buf host off n s).size b = s.size b :=
  size_copy_range buf 0 host off n s b

theorem read_buffer_create {B V : Type} [DecidableEq B] [Inhabited V] (buf host : B)
    (off n : Nat) (s : Store B V) (b : B) (k : Nat) :
    (buffer_create buf host off n s).read b k =
      if b = buf ∧ k < n ∧ k < s.size buf then s.read host (off + k) else s.read b k := by
  simp [buffer_create, read_copy_range]

theorem size_buffer_destroy {B V : Type} [DecidableEq B] [Inhabited V] (buf dst : B)
    (off n : Nat) (s : Store B V) (b : B) :
    (buffer_destroy buf dst off n s).size b = s.size b :=
  size_copy_range dst off buf 0 n s b

theorem read_buffer_destroy {B V : Type} [DecidableEq B] [Inhabited V] (buf dst : B)
    (off n : Nat) (s : Store B V) (b : B) (k : Nat) :
    (buffer_destroy buf dst off n s).read b k =
      if b = dst ∧ off ≤ k ∧ k < off + n ∧ k < s.size dst then s.read buf (k - off)
      else s.read b k := by
  simp [buffer_destroy, read_copy_range]

namespace Exercise_08_USM_Vector_Add

theorem fill_rowLocal_ex08 : RowLocal fill := by
  refine ⟨?_, ?_, ?_⟩
  · intro idx s c
    simp [fill, size_assign]
  · intro idx s c j hj
    simp [fill, read_assign, hj]
  · intro idx s t c hsz hst
    simp [fill, read_assign, size_assign, hsz, hst]

theorem usm_add_rowLocal_ex08 : RowLocal usm_add := by
  refine ⟨?_, ?_, ?_⟩
  · intro idx s c
    simp [usm_add, size_assign]
  · intro idx s c j hj
    simp [usm_add, read_assign, hj]
  · intro idx s t c hsz hst
    simp [usm_add, read_assign, size_assign, hsz, hst]

theorem memory_allocated_ex08 (v : Int) : (memory v).Allocated extent := by
  intro arr
  cases arr <;> simp [memory, Store.size, Store.array, extent]

theorem usm_vector_add_r (s0 : Store Mem Int) (h0 : s0.Allocated extent) (i : Nat)
    (hi : i < dataSize) : (usm_vector_add s0).read Mem.r i = 2 * (i : Int) := by
  have hsz : ∀ arr, s0.size arr = dataSize := h0
  simp [usm_vector_add, read_memcpy, size_memcpy, read_parallel_for usm_add_rowLocal_ex08,
    size_parallel_for usm_add_rowLocal_ex08, read_for_loop fill_rowLocal_ex08,
    size_for_loop fill_rowLocal_ex08.1, usm_add, fill, read_assign, size_assign, hsz, hi]
  ring

end Exercise_08_USM_Vector_Add

namespace Exercise_09_Synchronization

theorem fill_rowLocal_ex09 : RowLocal fill := by
  refine ⟨?_, ?_, ?_⟩
  · intro idx s c
    simp [fill, size_assign]
  · intro idx s c j hj
    simp [fill, read_assign, hj]
  · intro idx s t c hsz hst
    simp [fill, read_assign, size_assign, hsz, hst]

theorem usm_add_rowLocal_ex09 : RowLocal usm_add := by
  refine ⟨?_, ?_, ?_⟩
  · intro idx s c
    simp [usm_add, size_assign]
  · intro idx s c j hj
    simp [usm_add, read_assign, hj]
  · intro idx s t c hsz hst
    simp [usm_add, read_assign, size_assign, hsz, hst]

theorem vector_add_rowLocal : RowLocal vector_add := by
  refine ⟨?_, ?_, ?_⟩
  · intro idx s c
    simp [vector_add, size_assign]
  · intro idx s c j hj
    simp [vector_add, read_assign, hj]
  · intro idx s t c hsz hst
    simp [vector_add, read_assign, size_assign, hsz, hst]

theorem memory_allocated_ex09 (v : Int) : (memory v).Allocated extent := by
  intro arr
  cases arr <;> simp [memory, Store.size, Store.array, extent]

theorem synchronization_usm_r (s0 : Store Mem Int) (h0 : s0.Allocated extent) (i : Nat)
    (hi : i < dataSize) : (synchronization_usm s0).read Mem.r i = 2 * (i : Int) := by
  have hsz : ∀ arr, s0.size arr = dataSize := h0
  simp [synchronization_usm, read_memcpy, size_memcpy,
    read_parallel_for usm_add_rowLocal_ex09, size_parallel_for usm_add_rowLocal_ex09,
    read_for_loop fill_rowLocal_ex09, size_for_loop fill_rowLocal_ex09.1, usm_add, fill,
    read_assign, size_assign, hsz, hi]
  ring

theorem hostAccR_eq (s0 : Store Mem Int) (h0 : s0.Allocated extent) (i : Nat)
    (hi : i < dataSize) : hostAccR s0 i = 2 * (i : Int) := by
  have hsz : ∀ arr, s0.size arr = dataSize := h0
  simp [hostAccR, synchronization_buffer_acc_inner, read_buffer_create, size_buffer_create,
    read_parallel_for vector_add_rowLocal, size_parallel_for vector_add_rowLocal,
    read_for_loop fill_rowLocal_ex09, size_for_loop fill_rowLocal_ex09.1, vector_add, fill,
    read_assign, size_assign, hsz, hi]
  ring

theorem synchronization_buffer_acc_r (s0 : Store Mem Int) (h0 : s0.Allocated extent)
    (i : Nat) (hi : i < dataSize) :
    (synchronization_buffer_acc s0).read Mem.r i = 2 * (i : Int) := by
  have hsz : ∀ arr, s0.size arr = dataSize := h0
  simp [synchronization_buffer_acc, synchronization_buffer_acc_inner, read_buffer_create,
    size_buffer_create, read_buffer_destroy, size_buffer_destroy,
    read_parallel_for vector_add_rowLocal, size_parallel_for vector_add_rowLocal,
    read_for_loop fill_rowLocal_ex09, size_for_loop fill_rowLocal_ex09.1, vector_add, fill,
    read_assign, size_assign, hsz, hi]
  ring

end Exercise_09_Synchronization

/-- C1: in `usm_vector_add`, `synchronization_usm` and `synchronization_buffer_acc`,
whatever the arrays held before, after the fill loop, the staging to the device, the
kernel `r[idx] = a[idx] + b[idx]` over the range 1024 and the copy back, the host
array satisfies `r[i] == 2*i` for every `i < 1024`; in the buffer variant the host
accessor `hostAccR[i]`, read while the buffers are alive, is `2*i` as well.  Every
value is an integer below `2^24`, which a `float` holds exactly. -/
theorem C1_vector_add_result (s8 : Store Exercise_08_USM_Vector_Add.Mem Int)
    (h8 : s8.Allocated Exercise_08_USM_Vector_Add.extent)
    (s9 : Store Exercise_09_Synchronization.Mem Int)
    (h9 : s9.Allocated Exercise_09_Synchronization.extent) (i : Nat) (hi : i < 1024) :
    (Exercise_08_USM_Vector_Add.usm_vector_add s8).read Exercise_08_USM_Vector_Add.Mem.r i
        = 2 * (i : Int) ∧
      (Exercise_09_Synchronization.synchronization_usm s9).read
        Exercise_09_Synchronization.Mem.r i = 2 * (i : Int) ∧
      Exercise_09_Synchronization.hostAccR s9 i = 2 * (i : Int) ∧
      (Exercise_09_Synchronization.synchronization_buffer_acc s9).read
        Exercise_09_Synchronization.Mem.r i = 2 * (i : Int) ∧
      2 * (i : Int) < 2 ^ 24 :=
  ⟨Exercise_08_USM_Vector_Add.usm_vector_add_r s8 h8 i hi,
    Exercise_09_Synchronization.synchronization_usm_r s9 h9 i hi,
    Exercise_09_Synchronization.hostAccR_eq s9 h9 i hi,
    Exercise_09_Synchronization.synchronization_buffer_acc_r s9 h9 i hi,
    by omega⟩

/-- Witness of C1 at index 1023, from arrays that hold 7 in every element. -/
theorem C1_vector_add_result_witness :
    (Exercise_08_USM_Vector_Add.usm_vector_add (Exercise_08_USM_Vector_Add.memory 7)).read
        Exercise_08_USM_Vector_Add.Mem.r 1023 = 2 * ((1023 : Nat) : Int) ∧
      (Exercise_09_Synchronization.synchronization_usm
        (Exercise_09_Synchronization.memory 7)).read
        Exercise_09_Synchronization.Mem.r 1023 = 2 * ((1023 : Nat) : Int) ∧
      Exercise_09_Synchronization.hostAccR (Exercise_09_Synchronization.memory 7) 1023
        = 2 * ((1023 : Nat) : Int) ∧
      (Exercise_09_Synchronization.synchronization_buffer_acc
        (Exercise_09_Synchronization.memory 7)).read
        Exercise_09_Synchronization.Mem.r 1023 = 2 * ((1023 : Nat) : Int) ∧
      2 * ((1023 : Nat) : Int) < 2 ^ 24 :=
  C1_vector_add_result (Exercise_08_USM_Vector_Add.memory 7)
    (Exercise_08_USM_Vector_Add.memory_allocated_ex08 7)
    (Exercise_09_Synchronization.memory 7)
    (Exercise_09_Synchronization.memory_allocated_ex09 7) 1023 (by decide)

namespace Exercise_10_Managing_Dependencies

theorem fill_rowLocal_ex10 : RowLocal fill := by
  refine ⟨?_, ?_, ?_⟩
  · intro idx s c
    simp [fill, size_assign]
  · intro idx s c j hj
    simp [fill, read_assign, hj]
  · intro idx s t c hsz hst
    simp [fill, read_assign, size_assign, hsz, hst]

theorem kernelA_rowLocal : RowLocal kernelA := by
  refine ⟨?_, ?_, ?_⟩
  · intro idx s c
    simp [kernelA, size_assign]
  · intro idx s c j hj
    simp [kernelA, read_assign, hj]
  · intro idx s t c hsz hst
    simp [kernelA, read_assign, size_assign, hsz, hst]

theorem kernelB_rowLocal : RowLocal kernelB := by
  refine ⟨?_, ?_, ?_⟩
  · intro idx s c
    simp [kernelB, size_assign]
  · intro idx s c j hj
    simp [kernelB, read_assign, hj]
  · intro idx s t c hsz hst
    simp [kernelB, read_assign, size_assign, hsz, hst]

theorem kernelC_rowLocal : RowLocal kernelC := by
  refine ⟨?_, ?_, ?_⟩
  · intro idx s c
    simp [kernelC, size_assign]
  · intro idx s c j hj
    simp [kernelC, read_assign, hj]
  · intro idx s t c hsz hst
    simp [kernelC, read_assign, size_assign, hsz, hst]

theorem kernelOut_rowLocal : RowLocal kernelOut := by
  refine ⟨?_, ?_, ?_⟩
  · intro idx s c
    simp [kernelOut, size_assign]
  · intro idx s c j hj
    simp [kernelOut, read_assign, hj]
  · intro idx s t c hsz hst
    simp [kernelOut, read_assign, size_assign, hsz, hst]

theorem memory_allocated_ex10 (v : Int) : (memory v).Allocated extent := by
  intro arr
  cases arr <;> simp [memory, Store.size, Store.array, extent]

theorem managing_dependencies_out (s0 : Store Mem Int) (h0 : s0.Allocated extent) (i : Nat)
    (hi : i < dataSize) : (managing_dependencies s0).read Mem.out i = 2 * (i : Int) := by
  have hsz : ∀ arr, s0.size arr = dataSize := h0
  simp [managing_dependencies, create_buffers, destroy_buffers, read_buffer_create,
    size_buffer_create, read_buffer_destroy, size_buffer_destroy,
    read_parallel_for kernelA_rowLocal, size_parallel_for kernelA_rowLocal,
    read_parallel_for kernelB_rowLocal, size_parallel_for kernelB_rowLocal,
    read_parallel_for kernelC_rowLocal, size_parallel_for kernelC_rowLocal,
    read_parallel_for kernelOut_rowLocal, size_parallel_for kernelOut_rowLocal,
    read_for_loop fill_rowLocal_ex10, size_for_loop fill_rowLocal_ex10.1,
    kernelA, kernelB, kernelC, kernelOut, fill, read_assign, size_assign, hsz, hi]
  ring

theorem managing_dependencies_inA (s0 : Store Mem Int) (h0 : s0.Allocated extent) (i : Nat)
    (hi : i < dataSize) : (managing_dependencies s0).read Mem.inA i = 2 * (i : Int) := by
  have hsz : ∀ arr, s0.size arr = dataSize := h0
  simp [managing_dependencies, create_buffers, destroy_buffers, read_buffer_create,
    size_buffer_create, read_buffer_destroy, size_buffer_destroy,
    read_parallel_for kernelA_rowLocal, size_parallel_for kernelA_rowLocal,
    read_parallel_for kernelB_rowLocal, size_parallel_for kernelB_rowLocal,
    read_parallel_for kernelC_rowLocal, size_parallel_for kernelC_rowLocal,
    read_parallel_for kernelOut_rowLocal, size_parallel_for kernelOut_rowLocal,
    read_for_loop fill_rowLocal_ex10, size_for_loop fill_rowLocal_ex10.1,
    kernelA, kernelB, kernelC, kernelOut, fill, read_assign, size_assign, hsz, hi]
  ring

theorem managing_dependencies_inB (s0 : Store Mem Int) (h0 : s0.Allocated extent) (i : Nat)
    (hi : i < dataSize) : (managing_dependencies s0).read Mem.inB i = 3 * (i : Int) := by
  have hsz : ∀ arr, s0.size arr = dataSize := h0
  simp [managing_dependencies, create_buffers, destroy_buffers, read_buffer_create,
    size_buffer_create, read_buffer_destroy, size_buffer_destroy,
    read_parallel_for kernelA_rowLocal, size_parallel_for kernelA_rowLocal,
    read_parallel_for kernelB_rowLocal, size_parallel_for kernelB_rowLocal,
    read_parallel_for kernelC_rowLocal, size_parallel_for kernelC_rowLocal,
    read_parallel_for kernelOut_rowLocal, size_parallel_for kernelOut_rowLocal,
    read_for_loop fill_rowLocal_ex10, size_for_loop fill_rowLocal_ex10.1,
    kernelA, kernelB, kernelC, kernelOut, fill, read_assign, size_assign, hsz, hi]
  ring

theorem managing_dependencies_inC (s0 : Store Mem Int) (h0 : s0.Allocated extent) (i : Nat)
    (hi : i < dataSize) : (managing_dependencies s0).read Mem.inC i = -(i : Int) := by
  have hsz : ∀ arr, s0.size arr = dataSize := h0
  simp [managing_dependencies, create_buffers, destroy_buffers, read_buffer_create,
    size_buffer_create, read_buffer_destroy, size_buffer_destroy,
    read_parallel_for kernelA_rowLocal, size_parallel_for kernelA_rowLocal,
    read_parallel_for kernelB_rowLocal, size_parallel_for kernelB_rowLocal,
    read_parallel_for kernelC_rowLocal, size_parallel_for kernelC_rowLocal,
    read_parallel_for kernelOut_rowLocal, size_parallel_for kernelOut_rowLocal,
    read_for_loop fill_rowLocal_ex10, size_for_loop fill_rowLocal_ex10.1,
    kernelA, kernelB, kernelC, kernelOut, fill, read_assign, size_assign, hsz, hi]
  ring

end Exercise_10_Managing_Dependencies

namespace Exercise_10_Managing_Dependencies

/-- The kernels `kernelB` and `kernelC` commute on every memory. -/
theorem kernelB_kernelC_comm (s : Store Mem Int) (arr : Mem) :
    (parallel_for dataSize kernelC (parallel_for dataSize kernelB s)).array arr =
      (parallel_for dataSize kernelB (parallel_for dataSize kernelC s)).array arr := by
  apply array_ext
  · simp [size_parallel_for kernelB_rowLocal, size_parallel_for kernelC_rowLocal]
  · intro j _
    cases arr <;>
      simp [read_parallel_for kernelB_rowLocal, size_parallel_for kernelB_rowLocal,
        read_parallel_for kernelC_rowLocal, size_parallel_for kernelC_rowLocal,
        kernelB, kernelC, read_assign, size_assign]

/-- The dependencies inferred from the accessors are exactly: `kernelA` before
`kernelB` and `kernelC`, and both of these before `kernelOut`. -/
theorem depends_iff (k1 k2 : KernelName) :
    depends k1 k2 = true ↔
      (k1 = KernelName.A ∧ k2 = KernelName.B) ∨ (k1 = KernelName.A ∧ k2 = KernelName.C) ∨
      (k1 = KernelName.B ∧ k2 = KernelName.Out) ∨
      (k1 = KernelName.C ∧ k2 = KernelName.Out) := by
  cases k1 <;> cases k2 <;> decide

/-- Only two orders of the four kernels respect the dependencies. -/
theorem respects_cases (order : List KernelName) (hperm : order.Perm submission)
    (hres : respects order) :
    order = submission ∨
      order = [KernelName.A, KernelName.C, KernelName.B, KernelName.Out] := by
  have hlen : order.length = 4 := by
    simpa [submission] using hperm.length_eq
  match order, hlen with
  | [a, b, c, d], _ =>
    revert hperm hres
    cases a <;> cases b <;> cases c <;> cases d <;> decide

theorem foldl_four {α β : Type} (g : β → α → β) (s : β) (a b c d : α) :
    [a, b, c, d].foldl g s = g (g (g (g s a) b) c) d := rfl

theorem managing_dependencies_scheduled_submission (s0 : Store Mem Int) :
    managing_dependencies_scheduled submission s0 = managing_dependencies s0 := by
  rw [managing_dependencies_scheduled, managing_dependencies, submission, foldl_four]
  rfl

theorem managing_dependencies_scheduled_swap_eq (s0 : Store Mem Int) :
    managing_dependencies_scheduled
        [KernelName.A, KernelName.C, KernelName.B, KernelName.Out] s0 =
      destroy_buffers (parallel_for dataSize kernelOut (parallel_for dataSize kernelB
        (parallel_for dataSize kernelC (parallel_for dataSize kernelA
          (create_buffers (for_loop dataSize fill s0)))))) := by
  rw [managing_dependencies_scheduled, foldl_four]
  rfl

theorem managing_dependencies_eq (s0 : Store Mem Int) :
    managing_dependencies s0 =
      destroy_buffers (parallel_for dataSize kernelOut (parallel_for dataSize kernelC
        (parallel_for dataSize kernelB (parallel_for dataSize kernelA
          (create_buffers (for_loop dataSize fill s0)))))) := rfl

/-- With `kernelC` before `kernelB` every array ends with the same elements. -/
theorem managing_dependencies_scheduled_swap (s0 : Store Mem Int) (arr : Mem) :
    (managing_dependencies_scheduled
        [KernelName.A, KernelName.C, KernelName.B, KernelName.Out] s0).array arr =
      (managing_dependencies s0).array arr := by
  rw [managing_dependencies_scheduled_swap_eq, managing_dependencies_eq]
  apply array_ext
  · simp [destroy_buffers, size_buffer_destroy,
      size_parallel_for kernelA_rowLocal, size_parallel_for kernelB_rowLocal,
      size_parallel_for kernelC_rowLocal, size_parallel_for kernelOut_rowLocal]
  · intro j _
    cases arr <;>
      simp [destroy_buffers, read_buffer_destroy, size_buffer_destroy,
        read_parallel_for kernelA_rowLocal, size_parallel_for kernelA_rowLocal,
        read_parallel_for kernelB_rowLocal, size_parallel_for kernelB_rowLocal,
        read_parallel_for kernelC_rowLocal, size_parallel_for kernelC_rowLocal,
        read_parallel_for kernelOut_rowLocal, size_parallel_for kernelOut_rowLocal,
        kernelB, kernelC, kernelOut, read_assign, size_assign]

theorem managing_dependencies_scheduled_eq (order : List KernelName)
    (hperm : order.Perm submission) (hres : respects order) (s0 : Store Mem Int)
    (arr : Mem) :
    (managing_dependencies_scheduled order s0).array arr =
      (managing_dependencies s0).array arr := by
  rcases respects_cases order hperm hres with h | h
  · rw [h, managing_dependencies_scheduled_submission]
  · subst h
    exact managing_dependencies_scheduled_swap s0 arr

end Exercise_10_Managing_Dependencies

/-- C2: in `managing_dependencies`, whatever the arrays held before, after the fill
loop and the four kernels in submission order (`A[idx] = A[idx] * 2`,
`B[idx] += A[idx]`, `C[idx] -= A[idx]`, `out[idx] = B[idx] + C[idx]`) the host array
satisfies `out[i] == 2*i` for every `i < 1024`. -/
theorem C2_managing_dependencies_out
    (s0 : Store Exercise_10_Managing_Dependencies.Mem Int)
    (h0 : s0.Allocated Exercise_10_Managing_Dependencies.extent) (i : Nat)
    (hi : i < 1024) :
    (Exercise_10_Managing_Dependencies.managing_dependencies s0).read
      Exercise_10_Managing_Dependencies.Mem.out i = 2 * (i : Int) :=
  Exercise_10_Managing_Dependencies.managing_dependencies_out s0 h0 i hi

/-- Witness of C2 at index 1023, from arrays that hold 7 in every element. -/
theorem C2_managing_dependencies_out_witness :
    (Exercise_10_Managing_Dependencies.managing_dependencies
        (Exercise_10_Managing_Dependencies.memory 7)).read
      Exercise_10_Managing_Dependencies.Mem.out 1023 = 2 * ((1023 : Nat) : Int) :=
  C2_managing_dependencies_out (Exercise_10_Managing_Dependencies.memory 7)
    (Exercise_10_Managing_Dependencies.memory_allocated_ex10 7) 1023 (by decide)

namespace Exercise_12_Temporary_Data

theorem fill_rowLocal_ex12 : RowLocal fill := by
  refine ⟨?_, ?_, ?_⟩
  · intro idx s c
    simp [fill, size_assign]
  · intro idx s c j hj
    simp [fill, read_assign, hj]
  · intro idx s t c hsz hst
    simp [fill, read_assign, size_assign, hsz, hst]

theorem kernel1_rowLocal : RowLocal kernel1 := by
  refine ⟨?_, ?_, ?_⟩
  · intro idx s c
    simp [kernel1, size_assign]
  · intro idx s c j hj
    simp [kernel1, read_assign, hj]
  · intro idx s t c hsz hst
    simp [kernel1, read_assign, size_assign, hsz, hst]

theorem kernel2_rowLocal : RowLocal kernel2 := by
  refine ⟨?_, ?_, ?_⟩
  · intro idx s c
    simp [kernel2, size_assign]
  · intro idx s c j hj
    simp [kernel2, read_assign, hj]
  · intro idx s t c hsz hst
    simp [kernel2, read_assign, size_assign, hsz, hst]

theorem memory_allocated_ex12 (v : ℚ) : (memory v).Allocated extent := by
  intro arr
  cases arr <;> simp [memory, Store.size, Store.array, extent]

theorem size_temporary_data_kernel1 (s0 : Store Mem ℚ) (arr : Mem) :
    (temporary_data_kernel1 s0).size arr = s0.size arr := by
  simp [temporary_data_kernel1, size_buffer_create, size_parallel_for kernel1_rowLocal,
    size_for_loop fill_rowLocal_ex12.1]

theorem size_temporary_data_kernel2 (s0 : Store Mem ℚ) (arr : Mem) :
    (temporary_data_kernel2 s0).size arr = s0.size arr := by
  simp [temporary_data_kernel2, size_parallel_for kernel2_rowLocal,
    size_temporary_data_kernel1]

theorem temporary_data_kernel1_buffIn (s0 : Store Mem ℚ) (h0 : s0.Allocated extent)
    (i : Nat) (hi : i < dataSize) :
    (temporary_data_kernel1 s0).read Mem.buffIn i = (i : ℚ) := by
  have hsz : ∀ arr, s0.size arr = dataSize := h0
  simp [temporary_data_kernel1, read_buffer_create, size_buffer_create,
    read_parallel_for kernel1_rowLocal, size_parallel_for kernel1_rowLocal,
    read_for_loop fill_rowLocal_ex12, size_for_loop fill_rowLocal_ex12.1, kernel1, fill,
    read_assign, size_assign, hsz, hi]

theorem temporary_data_kernel1_buffTmp (s0 : Store Mem ℚ) (h0 : s0.Allocated extent)
    (i : Nat) (hi : i < dataSize) :
    (temporary_data_kernel1 s0).read Mem.buffTmp i = 8 * (i : ℚ) := by
  have hsz : ∀ arr, s0.size arr = dataSize := h0
  simp [temporary_data_kernel1, read_buffer_create, size_buffer_create,
    read_parallel_for kernel1_rowLocal, size_parallel_for kernel1_rowLocal,
    read_for_loop fill_rowLocal_ex12, size_for_loop fill_rowLocal_ex12.1, kernel1, fill,
    read_assign, size_assign, hsz, hi]
  ring

theorem temporary_data_kernel2_buffTmp (s0 : Store Mem ℚ) (h0 : s0.Allocated extent)
    (i : Nat) (hi : i < dataSize) :
    (temporary_data_kernel2 s0).read Mem.buffTmp i = 4 * (i : ℚ) := by
  have hsz : ∀ arr, s0.size arr = dataSize := h0
  simp [temporary_data_kernel2, read_parallel_for kernel2_rowLocal, kernel2, read_assign,
    size_temporary_data_kernel1, temporary_data_kernel1_buffTmp s0 h0 i hi, hsz, hi]
  ring

theorem temporary_data_out (s0 : Store Mem ℚ) (h0 : s0.Allocated extent) (i : Nat)
    (hi : i < dataSize) : (temporary_data s0).read Mem.out i = 4 * (i : ℚ) := by
  have hsz : ∀ arr, s0.size arr = dataSize := h0
  simp [temporary_data, read_buffer_destroy, size_temporary_data_kernel2,
    temporary_data_kernel2_buffTmp s0 h0 i hi, hsz, hi]

theorem exact_float_mul_natCast (k i : Nat) (hk : k * i < 2 ^ 24) :
    exact_float ((k : ℚ) * (i : ℚ)) := by
  refine ⟨((k * i : Nat) : Int), by push_cast; ring, ?_, ?_⟩
  · have : (0 : Int) ≤ ((k * i : Nat) : Int) := Int.natCast_nonneg _
    omega
  · exact_mod_cast hk

end Exercise_12_Temporary_Data

/-- C3: in `temporary_data`, whatever the arrays held before, after the fill loop,
`kernel1` (`tmp[idx] = in[idx] * 8`) and `kernel2` (`tmp[idx] /= 2`) on the buffer
that is bound to no host memory and whose final data is `out`, the host array
satisfies `out[i] == 4*i` for every `i < 1024`.  The values the kernels read and write
at index `i` (`i`, `8*i`, `4*i`) are integers below `2^24`, so the `float` arithmetic
is exact. -/
theorem C3_temporary_data_out
    (s0 : Store Exercise_12_Temporary_Data.Mem ℚ)
    (h0 : s0.Allocated Exercise_12_Temporary_Data.extent) (i : Nat) (hi : i < 1024) :
    (Exercise_12_Temporary_Data.temporary_data s0).read
        Exercise_12_Temporary_Data.Mem.out i = 4 * (i : ℚ) ∧
      Exercise_12_Temporary_Data.exact_float
        ((Exercise_12_Temporary_Data.temporary_data_kernel1 s0).read
          Exercise_12_Temporary_Data.Mem.buffIn i) ∧
      Exercise_12_Temporary_Data.exact_float
        ((Exercise_12_Temporary_Data.temporary_data_kernel1 s0).read
          Exercise_12_Temporary_Data.Mem.buffTmp i) ∧
      Exercise_12_Temporary_Data.exact_float
        ((Exercise_12_Temporary_Data.temporary_data_kernel2 s0).read
          Exercise_12_Temporary_Data.Mem.buffTmp i) := by
  refine ⟨Exercise_12_Temporary_Data.temporary_data_out s0 h0 i hi, ?_, ?_, ?_⟩
  · rw [Exercise_12_Temporary_Data.temporary_data_kernel1_buffIn s0 h0 i hi]
    have h := Exercise_12_Temporary_Data.exact_float_mul_natCast 1 i (by omega)
    simpa using h
  · rw [Exercise_12_Temporary_Data.temporary_data_kernel1_buffTmp s0 h0 i hi]
    exact_mod_cast Exercise_12_Temporary_Data.exact_float_mul_natCast 8 i (by omega)
  · rw [Exercise_12_Temporary_Data.temporary_data_kernel2_buffTmp s0 h0 i hi]
    exact_mod_cast Exercise_12_Temporary_Data.exact_float_mul_natCast 4 i (by omega)

/-- Witness of C3 at index 1023, from arrays that hold 7 in every element. -/
theorem C3_temporary_data_out_witness :
    (Exercise_12_Temporary_Data.temporary_data (Exercise_12_Temporary_Data.memory 7)).read
        Exercise_12_Temporary_Data.Mem.out 1023 = 4 * ((1023 : Nat) : ℚ) ∧
      Exercise_12_Temporary_Data.exact_float
        ((Exercise_12_Temporary_Data.temporary_data_kernel1
          (Exercise_12_Temporary_Data.memory 7)).read
          Exercise_12_Temporary_Data.Mem.buffIn 1023) ∧
      Exercise_12_Temporary_Data.exact_float
        ((Exercise_12_Temporary_Data.temporary_data_kernel1
          (Exercise_12_Temporary_Data.memory 7)).read
          Exercise_12_Temporary_Data.Mem.buffTmp 1023) ∧
      Exercise_12_Temporary_Data.exact_float
        ((Exercise_12_Temporary_Data.temporary_data_kernel2
          (Exercise_12_Temporary_Data.memory 7)).read
          Exercise_12_Temporary_Data.Mem.buffTmp 1023) :=
  C3_temporary_data_out (Exercise_12_Temporary_Data.memory 7)
    (Exercise_12_Temporary_Data.memory_allocated_ex12 7) 1023 (by decide)

namespace Exercise_13_Load_Balancing

theorem dataSizeFirst_eq : dataSizeFirst = 512 := by
  norm_num [dataSizeFirst, ratio, dataSize]

theorem dataSizeSecond_eq : dataSizeSecond = 512 := by
  simp [dataSizeSecond, dataSizeFirst_eq, dataSize]

theorem fill_rowLocal_ex13 : RowLocal fill := by
  refine ⟨?_, ?_, ?_⟩
  · intro idx s c
    simp [fill, size_assign]
  · intro idx s c j hj
    simp [fill, read_assign, hj]
  · intro idx s t c hsz hst
    simp [fill, read_assign, size_assign, hsz, hst]

theorem vector_add_first_rowLocal : RowLocal vector_add_first := by
  refine ⟨?_, ?_, ?_⟩
  · intro idx s c
    simp [vector_add_first, size_assign]
  · intro idx s c j hj
    simp [vector_add_first, read_assign, hj]
  · intro idx s t c hsz hst
    simp [vector_add_first, read_assign, size_assign, hsz, hst]

theorem vector_add_second_rowLocal : RowLocal vector_add_second := by
  refine ⟨?_, ?_, ?_⟩
  · intro idx s c
    simp [vector_add_second, size_assign]
  · intro idx s c j hj
    simp [vector_add_second, read_assign, hj]
  · intro idx s t c hsz hst
    simp [vector_add_second, read_assign, size_assign, hsz, hst]

theorem extent_eq (arr : Mem) :
    extent arr = match arr with
      | Mem.a => 1024
      | Mem.b => 1024
      | Mem.r => 1024
      | _ => 512 := by
  cases arr <;> simp [extent, dataSize, dataSizeFirst_eq, dataSizeSecond_eq]

theorem memory_allocated_ex13 (v : Int) : (memory v).Allocated extent := by
  intro arr
  cases arr <;> simp [memory, Store.size, Store.array]

/-- The first kernel leaves `a[i] + b[i]` in the first half of `r`. -/
theorem split_work_r_first (s : Store Mem Int) (h0 : s.Allocated extent) (i : Nat)
    (hi : i < dataSizeFirst) :
    (split_work s).read Mem.r i = s.read Mem.a i + s.read Mem.b i := by
  rw [dataSizeFirst_eq] at hi
  have hsz : ∀ arr, s.size arr = extent arr := h0
  have hi2 : i < 1024 := by omega
  simp [split_work, read_buffer_create, size_buffer_create, read_buffer_destroy,
    size_buffer_destroy, dataSizeFirst_eq, dataSizeSecond_eq, hi, hi2,
    read_parallel_for vector_add_first_rowLocal, size_parallel_for vector_add_first_rowLocal,
    read_parallel_for vector_add_second_rowLocal,
    size_parallel_for vector_add_second_rowLocal, vector_add_first, vector_add_second,
    read_assign, size_assign, hsz, extent_eq]

/-- The second kernel leaves `a[i] + b[i]` in the second half of `r`. -/
theorem split_work_r_second (s : Store Mem Int) (h0 : s.Allocated extent) (i : Nat)
    (hlo : dataSizeFirst ≤ i) (hhi : i < dataSizeFirst + dataSizeSecond) :
    (split_work s).read Mem.r i = s.read Mem.a i + s.read Mem.b i := by
  rw [dataSizeFirst_eq] at hlo
  rw [dataSizeFirst_eq, dataSizeSecond_eq] at hhi
  have hsz : ∀ arr, s.size arr = extent arr := h0
  have h1 : i - 512 < 512 := by omega
  have h2 : 512 + (i - 512) = i := by omega
  have h3 : i < 1024 := by omega
  simp [split_work, read_buffer_create, size_buffer_create, read_buffer_destroy,
    size_buffer_destroy, dataSizeFirst_eq, dataSizeSecond_eq, hlo, hhi, h1, h2, h3,
    read_parallel_for vector_add_first_rowLocal, size_parallel_for vector_add_first_rowLocal,
    read_parallel_for vector_add_second_rowLocal,
    size_parallel_for vector_add_second_rowLocal, vector_add_first, vector_add_second,
    read_assign, size_assign, hsz, extent_eq]

theorem fill_allocated (s0 : Store Mem Int) (h0 : s0.Allocated extent) :
    (for_loop dataSize fill s0).Allocated extent := by
  intro arr
  rw [size_for_loop fill_rowLocal_ex13.1]
  exact h0 arr

theorem fill_a (s0 : Store Mem Int) (h0 : s0.Allocated extent) (i : Nat)
    (hi : i < dataSize) : (for_loop dataSize fill s0).read Mem.a i = (i : Int) := by
  have hsz : ∀ arr, s0.size arr = extent arr := h0
  simp only [dataSize] at hi
  simp [read_for_loop fill_rowLocal_ex13, dataSize, hi, fill, read_assign, size_assign, hsz,
    extent_eq]

theorem fill_b (s0 : Store Mem Int) (h0 : s0.Allocated extent) (i : Nat)
    (hi : i < dataSize) : (for_loop dataSize fill s0).read Mem.b i = (i : Int) := by
  have hsz : ∀ arr, s0.size arr = extent arr := h0
  simp only [dataSize] at hi
  simp [read_for_loop fill_rowLocal_ex13, dataSize, hi, fill, read_assign, size_assign, hsz,
    extent_eq]

theorem load_balancing_eq (devs devices : List Device)
    (hdev : get_two_devices devs = some devices) (s0 : Store Mem Int) :
    load_balancing devs s0 = some (split_work (for_loop dataSize fill s0)) := by
  simp [load_balancing, hdev]

end Exercise_13_Load_Balancing

/-- C4: in `load_balancing`, whenever `get_two_devices` returns its two devices and
whatever the arrays held before, after the fill loop, `vector_add_first` on the
sub-arrays at offset 0 of length `dataSizeFirst` and `vector_add_second` on the
sub-arrays at offset `dataSizeFirst` of length `dataSizeSecond`, the test case ends
with a host array that satisfies `r[i] == 2*i` for every `i < 1024`, in the first half
and in the second half alike. -/
theorem C4_load_balancing_result (devs devices : List Device)
    (hdev : Exercise_13_Load_Balancing.get_two_devices devs = some devices)
    (s0 : Store Exercise_13_Load_Balancing.Mem Int)
    (h0 : s0.Allocated Exercise_13_Load_Balancing.extent) :
    ∃ s, Exercise_13_Load_Balancing.load_balancing devs s0 = some s ∧
      (∀ i, i < Exercise_13_Load_Balancing.dataSizeFirst →
        s.read Exercise_13_Load_Balancing.Mem.r i = 2 * (i : Int)) ∧
      (∀ i, Exercise_13_Load_Balancing.dataSizeFirst ≤ i → i < 1024 →
        s.read Exercise_13_Load_Balancing.Mem.r i = 2 * (i : Int)) ∧
      (∀ i, i < 1024 → s.read Exercise_13_Load_Balancing.Mem.r i = 2 * (i : Int)) := by
  have hfill := Exercise_13_Load_Balancing.fill_allocated s0 h0
  have hfirst : ∀ i, i < Exercise_13_Load_Balancing.dataSizeFirst →
      (Exercise_13_Load_Balancing.split_work
        (for_loop Exercise_13_Load_Balancing.dataSize Exercise_13_Load_Balancing.fill
          s0)).read Exercise_13_Load_Balancing.Mem.r i = 2 * (i : Int) := by
    intro i hi
    have hi2 : i < Exercise_13_Load_Balancing.dataSize := by
      rw [Exercise_13_Load_Balancing.dataSizeFirst_eq] at hi
      simp only [Exercise_13_Load_Balancing.dataSize]
      omega
    rw [Exercise_13_Load_Balancing.split_work_r_first _ hfill i hi,
      Exercise_13_Load_Balancing.fill_a s0 h0 i hi2,
      Exercise_13_Load_Balancing.fill_b s0 h0 i hi2]
    ring
  have hsecond : ∀ i, Exercise_13_Load_Balancing.dataSizeFirst ≤ i → i < 1024 →
      (Exercise_13_Load_Balancing.split_work
        (for_loop Exercise_13_Load_Balancing.dataSize Exercise_13_Load_Balancing.fill
          s0)).read Exercise_13_Load_Balancing.Mem.r i = 2 * (i : Int) := by
    intro i hlo hhi
    have hi2 : i < Exercise_13_Load_Balancing.dataSize := hhi
    have hsum : i < Exercise_13_Load_Balancing.dataSizeFirst
        + Exercise_13_Load_Balancing.dataSizeSecond := by
      rw [Exercise_13_Load_Balancing.dataSizeFirst_eq,
        Exercise_13_Load_Balancing.dataSizeSecond_eq]
      omega
    rw [Exercise_13_Load_Balancing.split_work_r_second _ hfill i hlo hsum,
      Exercise_13_Load_Balancing.fill_a s0 h0 i hi2,
      Exercise_13_Load_Balancing.fill_b s0 h0 i hi2]
    ring
  refine ⟨_, Exercise_13_Load_Balancing.load_balancing_eq devs devices hdev s0,
    hfirst, hsecond, ?_⟩
  intro i hi
  by_cases h : i < Exercise_13_Load_Balancing.dataSizeFirst
  · exact hfirst i h
  · exact hsecond i (Nat.le_of_not_lt h) hi

/-- Witness of C4 on an enumeration of three devices, from arrays that hold 7 in every
element. -/
theorem C4_load_balancing_result_witness :
    ∃ s, Exercise_13_Load_Balancing.load_balancing
        [Exercise_13_Load_Balancing.dev0, Exercise_13_Load_Balancing.dev1,
          Exercise_13_Load_Balancing.dev2] (Exercise_13_Load_Balancing.memory 7) = some s ∧
      (∀ i, i < Exercise_13_Load_Balancing.dataSizeFirst →
        s.read Exercise_13_Load_Balancing.Mem.r i = 2 * (i : Int)) ∧
      (∀ i, Exercise_13_Load_Balancing.dataSizeFirst ≤ i → i < 1024 →
        s.read Exercise_13_Load_Balancing.Mem.r i = 2 * (i : Int)) ∧
      (∀ i, i < 1024 → s.read Exercise_13_Load_Balancing.Mem.r i = 2 * (i : Int)) :=
  C4_load_balancing_result
    [Exercise_13_Load_Balancing.dev0, Exercise_13_Load_Balancing.dev1,
      Exercise_13_Load_Balancing.dev2]
    [Exercise_13_Load_Balancing.dev1, Exercise_13_Load_Balancing.dev2]
    (by decide) (Exercise_13_Load_Balancing.memory 7)
    (Exercise_13_Load_Balancing.memory_allocated_ex13 7)

/-- The executable selection returns a device the selection rule may choose. -/
theorem select_device_chosen (selector : Device → Int) (devs : List Device) (d : Device)
    (h : select_device selector devs = some d) : Chosen selector devs d := by
  induction devs generalizing d with
  | nil => simp [select_device] at h
  | cons x xs ih =>
    simp only [select_device] at h
    cases hxs : select_device selector xs with
    | none =>
      rw [hxs] at h
      have hnone : ∀ e ∈ xs, selector e < 0 := by
        clear h ih
        induction xs with
        | nil => simp
        | cons y ys ihy =>
          simp only [select_device] at hxs
          cases hys : select_device selector ys with
          | none =>
            rw [hys] at hxs
            intro e he
            rcases List.mem_cons.mp he with rfl | he
            · by_contra hneg
              simp [Int.not_lt.mp hneg] at hxs
            · exact ihy hys e he
          | some z =>
            rw [hys] at hxs
            simp only at hxs
            split_ifs at hxs
      simp only at h
      split_ifs at h with h0
      cases h
      refine ⟨by simp, h0, ?_⟩
      intro e he
      rcases List.mem_cons.mp he with rfl | he
      · exact le_refl _
      · have := hnone e he
        omega
    | some z =>
      rw [hxs] at h
      obtain ⟨hz1, hz2, hz3⟩ := ih z hxs
      simp only at h
      split_ifs at h with h1 h2
      · cases h
        refine ⟨by simp, h2, ?_⟩
        intro e he
        rcases List.mem_cons.mp he with rfl | he
        · exact le_refl _
        · exact le_trans (hz3 e he) h1
      · cases h
        omega
      · cases h
        refine ⟨by simp [hz1], hz2, ?_⟩
        intro e he
        rcases List.mem_cons.mp he with rfl | he
        · omega
        · exact hz3 e he

namespace Exercise_07_USM_Selector

/-- The selector scores 1 with the aspect and 0 without it. -/
theorem usm_selector_eq (dev : Device) :
    usm_selector dev = if dev.has Aspect.usm_device_allocations = true then 1 else 0 := rfl

/-- When some available device has the aspect, every device the rule may choose has
it. -/
theorem chosen_has_usm (devs : List Device) (d e : Device) (he : e ∈ devs)
    (hasp : e.has Aspect.usm_device_allocations = true)
    (h : Chosen usm_selector devs d) : d.has Aspect.usm_device_allocations = true := by
  have hle := h.2.2 e he
  by_contra hd
  simp [usm_selector, hasp, hd] at hle

end Exercise_07_USM_Selector

/-- C7 fails on the code: `usm_selector` scores a device without the aspect
`usm_device_allocations` with 0, which is not negative, so on a machine whose only
device is such a device the runtime builds the queue on it. -/
theorem C7_selector_admits_device_without_usm :
    Exercise_07_USM_Selector.usm_selector Exercise_07_USM_Selector.host_cpu = 0 ∧
      Chosen Exercise_07_USM_Selector.usm_selector [Exercise_07_USM_Selector.host_cpu]
        Exercise_07_USM_Selector.host_cpu ∧
      Exercise_07_USM_Selector.usmQueue [Exercise_07_USM_Selector.host_cpu]
        = some Exercise_07_USM_Selector.host_cpu ∧
      Exercise_07_USM_Selector.host_cpu.has Aspect.usm_device_allocations = false ∧
      Exercise_08_USM_Vector_Add.usm_selector Exercise_07_USM_Selector.host_cpu = 0 ∧
      Exercise_09_Synchronization.usm_selector Exercise_07_USM_Selector.host_cpu = 0 := by
  unfold Chosen
  decide

/-- C8: for every execution order of the four kernels of `managing_dependencies`
that respects the dependencies inferred from the accessors (which are: `kernelA`
before `kernelB` and before `kernelC`, `kernelB` and `kernelC` before `kernelOut`),
every array, and so each of `inA`, `inB`, `inC` and `out`, ends with the same
elements as for the submission order, and `out[i] == 2*i` for every `i < 1024`;
`kernelB` and `kernelC` commute on every memory. -/
theorem C8_schedule_independent (order : List Exercise_10_Managing_Dependencies.KernelName)
    (hperm : order.Perm Exercise_10_Managing_Dependencies.submission)
    (hres : Exercise_10_Managing_Dependencies.respects order)
    (s0 : Store Exercise_10_Managing_Dependencies.Mem Int)
    (h0 : s0.Allocated Exercise_10_Managing_Dependencies.extent) :
    (∀ arr,
        (Exercise_10_Managing_Dependencies.managing_dependencies_scheduled order s0).array arr
          = (Exercise_10_Managing_Dependencies.managing_dependencies s0).array arr) ∧
      (∀ i, i < 1024 →
        (Exercise_10_Managing_Dependencies.managing_dependencies_scheduled order s0).read
          Exercise_10_Managing_Dependencies.Mem.out i = 2 * (i : Int)) ∧
      (∀ (s : Store Exercise_10_Managing_Dependencies.Mem Int) arr,
        (Exercise_10_Managing_Dependencies.run_kernel
            Exercise_10_Managing_Dependencies.KernelName.C
            (Exercise_10_Managing_Dependencies.run_kernel
              Exercise_10_Managing_Dependencies.KernelName.B s)).array arr
          = (Exercise_10_Managing_Dependencies.run_kernel
              Exercise_10_Managing_Dependencies.KernelName.B
              (Exercise_10_Managing_Dependencies.run_kernel
                Exercise_10_Managing_Dependencies.KernelName.C s)).array arr) ∧
      (∀ k1 k2, Exercise_10_Managing_Dependencies.depends k1 k2 = true ↔
        (k1 = Exercise_10_Managing_Dependencies.KernelName.A ∧
          k2 = Exercise_10_Managing_Dependencies.KernelName.B) ∨
        (k1 = Exercise_10_Managing_Dependencies.KernelName.A ∧
          k2 = Exercise_10_Managing_Dependencies.KernelName.C) ∨
        (k1 = Exercise_10_Managing_Dependencies.KernelName.B ∧
          k2 = Exercise_10_Managing_Dependencies.KernelName.Out) ∨
        (k1 = Exercise_10_Managing_Dependencies.KernelName.C ∧
          k2 = Exercise_10_Managing_Dependencies.KernelName.Out)) := by
  have heq := Exercise_10_Managing_Dependencies.managing_dependencies_scheduled_eq
    order hperm hres s0
  refine ⟨heq, ?_, ?_, Exercise_10_Managing_Dependencies.depends_iff⟩
  · intro i hi
    have hout := Exercise_10_Managing_Dependencies.managing_dependencies_out s0 h0 i hi
    unfold Store.read at hout ⊢
    rw [heq]
    exact hout
  · intro s arr
    exact Exercise_10_Managing_Dependencies.kernelB_kernelC_comm s arr

/-- Witness of C8 on the order `kernelA`, `kernelC`, `kernelB`, `kernelOut` and the
array `inB`, from arrays that hold 7 in every element. -/
theorem C8_schedule_independent_witness :
    (Exercise_10_Managing_Dependencies.managing_dependencies_scheduled
        [Exercise_10_Managing_Dependencies.KernelName.A,
          Exercise_10_Managing_Dependencies.KernelName.C,
          Exercise_10_Managing_Dependencies.KernelName.B,
          Exercise_10_Managing_Dependencies.KernelName.Out]
        (Exercise_10_Managing_Dependencies.memory 7)).array
        Exercise_10_Managing_Dependencies.Mem.inB
      = (Exercise_10_Managing_Dependencies.managing_dependencies
        (Exercise_10_Managing_Dependencies.memory 7)).array
        Exercise_10_Managing_Dependencies.Mem.inB :=
  (C8_schedule_independent
    [Exercise_10_Managing_Dependencies.KernelName.A,
      Exercise_10_Managing_Dependencies.KernelName.C,
      Exercise_10_Managing_Dependencies.KernelName.B,
      Exercise_10_Managing_Dependencies.KernelName.Out]
    (by decide) (by decide) (Exercise_10_Managing_Dependencies.memory 7)
    (Exercise_10_Managing_Dependencies.memory_allocated_ex10 7)).1
    Exercise_10_Managing_Dependencies.Mem.inB

/-- C9 fails on the code: on an enumeration of two devices `get_two_devices` takes
the branch that reads `devs[1]` and `devs[2]`, and `devs[2]` is past the end of
`devs`. -/
theorem C9_two_devices_out_of_bounds :
    [Exercise_13_Load_Balancing.dev0, Exercise_13_Load_Balancing.dev1].length = 2 ∧
      [Exercise_13_Load_Balancing.dev0, Exercise_13_Load_Balancing.dev1][2]? = none ∧
      Exercise_13_Load_Balancing.get_two_devices
        [Exercise_13_Load_Balancing.dev0, Exercise_13_Load_Balancing.dev1] = none := by
  decide

/-- C10: in `managing_dependencies`, once the four kernels have run and the buffers
are destroyed, for every `i < 1024` the host arrays hold `inA[i] == 2*i`,
`inB[i] == 3*i` and `inC[i] == -i`, and `out[i]` is `inB[i] + inC[i]`, which is
`2*i`. -/
theorem C10_intermediate_results_written_back
    (s0 : Store Exercise_10_Managing_Dependencies.Mem Int)
    (h0 : s0.Allocated Exercise_10_Managing_Dependencies.extent) (i : Nat)
    (hi : i < 1024) :
    (Exercise_10_Managing_Dependencies.managing_dependencies s0).read
        Exercise_10_Managing_Dependencies.Mem.inA i = 2 * (i : Int) ∧
      (Exercise_10_Managing_Dependencies.managing_dependencies s0).read
        Exercise_10_Managing_Dependencies.Mem.inB i = 3 * (i : Int) ∧
      (Exercise_10_Managing_Dependencies.managing_dependencies s0).read
        Exercise_10_Managing_Dependencies.Mem.inC i = -(i : Int) ∧
      (Exercise_10_Managing_Dependencies.managing_dependencies s0).read
          Exercise_10_Managing_Dependencies.Mem.out i
        = (Exercise_10_Managing_Dependencies.managing_dependencies s0).read
            Exercise_10_Managing_Dependencies.Mem.inB i
          + (Exercise_10_Managing_Dependencies.managing_dependencies s0).read
            Exercise_10_Managing_Dependencies.Mem.inC i ∧
      (Exercise_10_Managing_Dependencies.managing_dependencies s0).read
          Exercise_10_Managing_Dependencies.Mem.out i = 2 * (i : Int) := by
  have hA := Exercise_10_Managing_Dependencies.managing_dependencies_inA s0 h0 i hi
  have hB := Exercise_10_Managing_Dependencies.managing_dependencies_inB s0 h0 i hi
  have hC := Exercise_10_Managing_Dependencies.managing_dependencies_inC s0 h0 i hi
  have hO := Exercise_10_Managing_Dependencies.managing_dependencies_out s0 h0 i hi
  refine ⟨hA, hB, hC, ?_, hO⟩
  rw [hO, hB, hC]
  ring

/-- Witness of C10 at index 1023, from arrays that hold 7 in every element. -/
theorem C10_intermediate_results_written_back_witness :
    (Exercise_10_Managing_Dependencies.managing_dependencies
        (Exercise_10_Managing_Dependencies.memory 7)).read
        Exercise_10_Managing_Dependencies.Mem.inA 1023 = 2 * ((1023 : Nat) : Int) ∧
      (Exercise_10_Managing_Dependencies.managing_dependencies
        (Exercise_10_Managing_Dependencies.memory 7)).read
        Exercise_10_Managing_Dependencies.Mem.inB 1023 = 3 * ((1023 : Nat) : Int) ∧
      (Exercise_10_Managing_Dependencies.managing_dependencies
        (Exercise_10_Managing_Dependencies.memory 7)).read
        Exercise_10_Managing_Dependencies.Mem.inC 1023 = -((1023 : Nat) : Int) ∧
      (Exercise_10_Managing_Dependencies.managing_dependencies
          (Exercise_10_Managing_Dependencies.memory 7)).read
          Exercise_10_Managing_Dependencies.Mem.out 1023
        = (Exercise_10_Managing_Dependencies.managing_dependencies
            (Exercise_10_Managing_Dependencies.memory 7)).read
            Exercise_10_Managing_Dependencies.Mem.inB 1023
          + (Exercise_10_Managing_Dependencies.managing_dependencies
            (Exercise_10_Managing_Dependencies.memory 7)).read
            Exercise_10_Managing_Dependencies.Mem.inC 1023 ∧
      (Exercise_10_Managing_Dependencies.managing_dependencies
          (Exercise_10_Managing_Dependencies.memory 7)).read
          Exercise_10_Managing_Dependencies.Mem.out 1023 = 2 * ((1023 : Nat) : Int) :=
  C10_intermediate_results_written_back (Exercise_10_Managing_Dependencies.memory 7)
    (Exercise_10_Managing_Dependencies.memory_allocated_ex10 7) 1023 (by decide)

namespace Exercise_12_Temporary_Data

/-- The buffers and the kernels leave the host array `in` as the fill loop left it:
no kernel writes `buffIn` and nothing is copied back from it. -/
theorem temporary_data_in_unchanged (s0 : Store Mem ℚ) :
    (temporary_data s0).array Mem.in_ = (for_loop dataSize fill s0).array Mem.in_ := by
  apply array_ext
  · simp [temporary_data, size_buffer_destroy, size_temporary_data_kernel2,
      size_for_loop fill_rowLocal_ex12.1]
  · intro j _
    simp [temporary_data, temporary_data_kernel2, temporary_data_kernel1,
      read_buffer_destroy, read_buffer_create, read_parallel_for kernel1_rowLocal,
      read_parallel_for kernel2_rowLocal, kernel1, kernel2, read_assign]

/-- The buffers and the kernels leave the host array `tmp` as the fill loop left it:
`buffTmp` is bound to no host memory and its final data is `out`. -/
theorem temporary_data_tmp_unchanged (s0 : Store Mem ℚ) :
    (temporary_data s0).array Mem.tmp = (for_loop dataSize fill s0).array Mem.tmp := by
  apply array_ext
  · simp [temporary_data, size_buffer_destroy, size_temporary_data_kernel2,
      size_for_loop fill_rowLocal_ex12.1]
  · intro j _
    simp [temporary_data, temporary_data_kernel2, temporary_data_kernel1,
      read_buffer_destroy, read_buffer_create, read_parallel_for kernel1_rowLocal,
      read_parallel_for kernel2_rowLocal, kernel1, kernel2, read_assign]

theorem fill_in_ex12 (s0 : Store Mem ℚ) (h0 : s0.Allocated extent) (i : Nat)
    (hi : i < dataSize) : (for_loop dataSize fill s0).read Mem.in_ i = (i : ℚ) := by
  have hsz : ∀ arr, s0.size arr = dataSize := h0
  simp [read_for_loop fill_rowLocal_ex12, fill, read_assign, size_assign, hsz, hi]

theorem fill_tmp_ex12 (s0 : Store Mem ℚ) (h0 : s0.Allocated extent) (i : Nat)
    (hi : i < dataSize) : (for_loop dataSize fill s0).read Mem.tmp i = 0 := by
  have hsz : ∀ arr, s0.size arr = dataSize := h0
  simp [read_for_loop fill_rowLocal_ex12, fill, read_assign, size_assign, hsz, hi]

theorem fill_out_ex12 (s0 : Store Mem ℚ) (h0 : s0.Allocated extent) (i : Nat)
    (hi : i < dataSize) : (for_loop dataSize fill s0).read Mem.out i = 0 := by
  have hsz : ∀ arr, s0.size arr = dataSize := h0
  simp [read_for_loop fill_rowLocal_ex12, fill, read_assign, size_assign, hsz, hi]

end Exercise_12_Temporary_Data

/-- C11: in `temporary_data`, whatever the arrays held before, after both kernels
have run and the buffers are destroyed, for every `i < 1024` the host arrays hold
`in[i] == i` and `tmp[i] == 0`; the arrays `in` and `tmp` are, element for element,
what the fill loop left, while `out[i]` goes from the `0` of the fill loop to `4*i`:
`out` is the only host array that changes. -/
theorem C11_temporary_data_frame
    (s0 : Store Exercise_12_Temporary_Data.Mem ℚ)
    (h0 : s0.Allocated Exercise_12_Temporary_Data.extent) (i : Nat) (hi : i < 1024) :
    (Exercise_12_Temporary_Data.temporary_data s0).read
        Exercise_12_Temporary_Data.Mem.in_ i = (i : ℚ) ∧
      (Exercise_12_Temporary_Data.temporary_data s0).read
        Exercise_12_Temporary_Data.Mem.tmp i = 0 ∧
      (Exercise_12_Temporary_Data.temporary_data s0).array
          Exercise_12_Temporary_Data.Mem.in_
        = (for_loop Exercise_12_Temporary_Data.dataSize Exercise_12_Temporary_Data.fill
            s0).array Exercise_12_Temporary_Data.Mem.in_ ∧
      (Exercise_12_Temporary_Data.temporary_data s0).array
          Exercise_12_Temporary_Data.Mem.tmp
        = (for_loop Exercise_12_Temporary_Data.dataSize Exercise_12_Temporary_Data.fill
            s0).array Exercise_12_Temporary_Data.Mem.tmp ∧
      (for_loop Exercise_12_Temporary_Data.dataSize Exercise_12_Temporary_Data.fill
          s0).read Exercise_12_Temporary_Data.Mem.out i = 0 ∧
      (Exercise_12_Temporary_Data.temporary_data s0).read
        Exercise_12_Temporary_Data.Mem.out i = 4 * (i : ℚ) := by
  have hin := Exercise_12_Temporary_Data.temporary_data_in_unchanged s0
  have htmp := Exercise_12_Temporary_Data.temporary_data_tmp_unchanged s0
  have hfin := Exercise_12_Temporary_Data.fill_in_ex12 s0 h0 i hi
  have hftmp := Exercise_12_Temporary_Data.fill_tmp_ex12 s0 h0 i hi
  refine ⟨?_, ?_, hin, htmp, Exercise_12_Temporary_Data.fill_out_ex12 s0 h0 i hi,
    Exercise_12_Temporary_Data.temporary_data_out s0 h0 i hi⟩
  · unfold Store.read at hfin ⊢
    rw [hin]
    exact hfin
  · unfold Store.read at hftmp ⊢
    rw [htmp]
    exact hftmp

/-- Witness of C11 at index 1023, from arrays that hold 7 in every element. -/
theorem C11_temporary_data_frame_witness :
    (Exercise_12_Temporary_Data.temporary_data (Exercise_12_Temporary_Data.memory 7)).read
        Exercise_12_Temporary_Data.Mem.in_ 1023 = ((1023 : Nat) : ℚ) ∧
      (Exercise_12_Temporary_Data.temporary_data (Exercise_12_Temporary_Data.memory 7)).read
        Exercise_12_Temporary_Data.Mem.tmp 1023 = 0 ∧
      (Exercise_12_Temporary_Data.temporary_data (Exercise_12_Temporary_Data.memory 7)).array
          Exercise_12_Temporary_Data.Mem.in_
        = (for_loop Exercise_12_Temporary_Data.dataSize Exercise_12_Temporary_Data.fill
            (Exercise_12_Temporary_Data.memory 7)).array
            Exercise_12_Temporary_Data.Mem.in_ ∧
      (Exercise_12_Temporary_Data.temporary_data (Exercise_12_Temporary_Data.memory 7)).array
          Exercise_12_Temporary_Data.Mem.tmp
        = (for_loop Exercise_12_Temporary_Data.dataSize Exercise_12_Temporary_Data.fill
            (Exercise_12_Temporary_Data.memory 7)).array
            Exercise_12_Temporary_Data.Mem.tmp ∧
      (for_loop Exercise_12_Temporary_Data.dataSize Exercise_12_Temporary_Data.fill
          (Exercise_12_Temporary_Data.memory 7)).read
          Exercise_12_Temporary_Data.Mem.out 1023 = 0 ∧
      (Exercise_12_Temporary_Data.temporary_data (Exercise_12_Temporary_Data.memory 7)).read
        Exercise_12_Temporary_Data.Mem.out 1023 = 4 * ((1023 : Nat) : ℚ) :=
  C11_temporary_data_frame (Exercise_12_Temporary_Data.memory 7)
    (Exercise_12_Temporary_Data.memory_allocated_ex12 7) 1023 (by decide)

end SyclAcademy
